import Mathlib

/-!
Verification of the error-reporter service (`src/error-reporter.js`): a shallow
embedding of the ingestion pipeline (validation, rate limiting, enrichment,
append-only logging) and of the log read-back endpoint, with theorems checking
the specified behaviour against the embedded code.
-/

set_option autoImplicit false

namespace ErrorReporter

/-- JavaScript values as they occur in the JSON payload fields this service
touches: strings, numbers (modelled as rationals) and `null`.  An absent
(`undefined`) field is modelled as `Option.none` one level up. -/
inductive JsVal where
  | vstr (s : String)
  | vnum (q : Rat)
  | vnull
  deriving DecidableEq

/-- JS number-to-string conversion as used by a template literal, for the
values that can occur here: an integral number prints as its decimal integer
form.  The non-integral case is an approximation (validation rejects
non-integers before any number is interpolated on the success path). -/
def numToString (q : Rat) : String :=
  if q.den = 1 then toString q.num else toString q.num ++ "/" ++ toString q.den

/-- Interpolation of a possibly-absent JS value into a template literal
(JS ToString: `undefined` prints "undefined", `null` prints "null"). -/
def interp : Option JsVal → String
  | none => "undefined"
  | some (.vstr s) => s
  | some (.vnum q) => numToString q
  | some .vnull => "null"

/-- JS truthiness of a possibly-absent value: `undefined`, `null`, `""` and
`0` are falsy. -/
def truthy : Option JsVal → Bool
  | none => false
  | some (.vstr s) => s ≠ ""
  | some (.vnum q) => q ≠ 0
  | some .vnull => false

/-- The request body of `POST /report-error`, restricted to the five fields
the schema declares and the handler destructures (`errorMessage`, `url`,
`line`, `column`, `errorStack`); `none` models an absent field. -/
structure Payload where
  errorMessage : Option JsVal
  url : Option JsVal
  line : Option JsVal
  column : Option JsVal
  errorStack : Option JsVal
  deriving DecidableEq

/-- Decimal value of a digit run. -/
def digitsVal (cs : List Char) : Nat :=
  cs.foldl (fun acc c => acc * 10 + (c.toNat - 48)) 0

/-- Modelled from the spec: the numeric-string conversion Joi's `number()`
applies to a string payload value (Joi is a library dependency, not part of
src/).  Accepts a non-empty digit run with an optional fractional digit run,
as JS `Number` does on such inputs. -/
def parseUnsigned (cs : List Char) : Option Rat :=
  match cs.splitOn '.' with
  | [intPart] =>
      if intPart ≠ [] ∧ intPart.all Char.isDigit then some ((digitsVal intPart : Nat) : Rat)
      else none
  | [intPart, fracPart] =>
      if intPart ≠ [] ∧ fracPart ≠ [] ∧ intPart.all Char.isDigit ∧ fracPart.all Char.isDigit then
        some (((digitsVal intPart : Nat) : Rat) +
          ((digitsVal fracPart : Nat) : Rat) / ((10 : Rat) ^ fracPart.length))
      else none
  | _ => none

/-- Numeric-string parsing with an optional leading minus sign. -/
def parseNumber (s : String) : Option Rat :=
  match s.data with
  | '-' :: rest => (parseUnsigned rest).map (fun q => -q)
  | cs => parseUnsigned cs

/-- Characters allowed after the first character of a URI scheme. -/
def isSchemeChar (c : Char) : Bool :=
  c.isAlpha || c.isDigit || c = '+' || c = '-' || c = '.'

/-- Modelled from the spec: Joi's `string().uri()` check (spec §4.1: "`url`
present and a syntactically valid URI"; Joi is a library dependency, not part
of src/), approximated as an RFC 3986 absolute-URI shape: a scheme (a letter
followed by letters/digits/'+'/'-'/'.') then ':' and a non-empty remainder
containing no whitespace. -/
def isValidUri (s : String) : Bool :=
  match s.data.takeWhile (fun c => c ≠ ':'), s.data.dropWhile (fun c => c ≠ ':') with
  | c0 :: scheme, ':' :: tail =>
      c0.isAlpha && scheme.all isSchemeChar && !tail.isEmpty &&
        tail.all (fun c => !c.isWhitespace)
  | _, _ => false

/-- Joi-style quoting of a field name inside an error message. -/
def quoted (f : String) : String := "\"" ++ f ++ "\""

/-- Modelled from the spec: Joi's `string().required()` check for one field
(spec §4.1: "present and is a non-empty string").  Returns the violation
message, or `none` when the value conforms. -/
def checkRequiredString (field : String) (v : Option JsVal) : Option String :=
  match v with
  | none => some (quoted field ++ " is required")
  | some (.vstr "") => some (quoted field ++ " is not allowed to be empty")
  | some (.vstr _) => none
  | some _ => some (quoted field ++ " must be a string")

/-- Modelled from the spec: Joi's `string().uri().required()` check for the
`url` field. -/
def checkUri (field : String) (v : Option JsVal) : Option String :=
  match checkRequiredString field v with
  | some e => some e
  | none =>
      match v with
      | some (.vstr s) =>
          if isValidUri s then none else some (quoted field ++ " must be a valid uri")
      | _ => none

/-- Modelled from the spec: Joi's `number().integer().required()` check with
Joi's default conversion, which coerces a numeric string to a number before
the integer test. -/
def checkRequiredInteger (field : String) (v : Option JsVal) : Option String :=
  match v with
  | none => some (quoted field ++ " is required")
  | some (.vnum q) =>
      if q.den = 1 then none else some (quoted field ++ " must be an integer")
  | some (.vstr s) =>
      match parseNumber s with
      | none => some (quoted field ++ " must be a number")
      | some q => if q.den = 1 then none else some (quoted field ++ " must be an integer")
  | some .vnull => some (quoted field ++ " must be a number")

/-- Modelled from the spec: Joi's `string().allow(null)` check for the
optional `errorStack` field. -/
def checkErrorStack (v : Option JsVal) : Option String :=
  match v with
  | none => none
  | some .vnull => none
  | some (.vstr "") => some (quoted "errorStack" ++ " is not allowed to be empty")
  | some (.vstr _) => none
  | some (.vnum _) => some (quoted "errorStack" ++ " must be a string")

/-- `errorSchema.validate` (src/error-reporter.js:44-50) with Joi's defaults:
abort on the first violation, checking fields in schema key order
(`errorMessage`, `url`, `line`, `column`, `errorStack`).  Returns the first
violation's message (`error.details[0].message`), or `none` when valid.
Joi itself is a library dependency modelled from the spec (§4.1). -/
def firstError (p : Payload) : Option String :=
  match checkRequiredString "errorMessage" p.errorMessage with
  | some e => some e
  | none =>
  match checkUri "url" p.url with
  | some e => some e
  | none =>
  match checkRequiredInteger "line" p.line with
  | some e => some e
  | none =>
  match checkRequiredInteger "column" p.column with
  | some e => some e
  | none => checkErrorStack p.errorStack

/-- One element of `content.parts` in the external service's JSON response. -/
structure GeminiPart where
  text : Option String
  deriving DecidableEq

/-- The `content` object of one response candidate. -/
structure GeminiContent where
  parts : Option (List GeminiPart)
  deriving DecidableEq

/-- One element of the `candidates` array of the response. -/
structure GeminiCandidate where
  content : Option GeminiContent
  deriving DecidableEq

/-- The decoded JSON body of a successful enrichment response. -/
structure GeminiData where
  candidates : Option (List GeminiCandidate)
  deriving DecidableEq

/-- Outcome of one `fetch` to the enrichment endpoint, as the try/catch in
`analyzeErrorWithGemini` observes it: the transport throwing, `response.ok`
false, `response.json()` throwing, or a decoded JSON body. -/
inductive FetchOutcome where
  | transportError
  | httpError
  | malformedJson
  | success (data : GeminiData)
  deriving DecidableEq

/-- Fallback when the credential is missing (src/error-reporter.js:57). -/
def keyMissingMsg : String := "Gemini API Key not set. Please configure GEMINI_API_KEY."

/-- Fallback when the service answers with a non-success status
(src/error-reporter.js:88). -/
def apiErrorMsg : String := "Gemini API error: Unable to retrieve recommendation."

/-- Fallback when the expected response structure is absent
(src/error-reporter.js:103-105). -/
def noRecMsg : String := "No recommendation provided by Gemini API."

/-- Fallback when the fetch (or response decoding) throws
(src/error-reporter.js:108). -/
def callErrorMsg : String := "Error calling Gemini API."

/-- The API-key constant of src/error-reporter.js:22 (an inline placeholder;
the spec directs that it be sourced from configuration instead). -/
def GEMINI_API_KEY : String := "Your gemini api"

/-- JS falsiness of the credential as tested by `if (!GEMINI_API_KEY)`:
absent (`undefined`) or the empty string. -/
def credentialFalsy : Option String → Bool
  | none => true
  | some k => k = ""

/-- The prompt template literal of src/error-reporter.js:62-66, applied to
the raw destructured payload values (`${errorStack || 'No stack available'}`
substitutes the marker for any falsy stack). -/
def buildPrompt (p : Payload) : String :=
  "You are an expert software engineer. Based on the following error details, please provide a clear recommendation on how to fix the error within 60 words:\n" ++
  "Error Message: \"" ++ interp p.errorMessage ++ "\"\n" ++
  "Location: " ++ interp p.url ++ " at line " ++ interp p.line ++ ", column " ++
  interp p.column ++ "\n" ++
  "Stack Trace: " ++ (if truthy p.errorStack then interp p.errorStack else "No stack available") ++
  "\n" ++ "Recommendation:"

/-- The `candidate.content && candidate.content.parts &&
candidate.content.parts[0] && candidate.content.parts[0].text` chain of
src/error-reporter.js:99-102, for the first candidate. -/
def firstPartText (d : GeminiData) : Option String :=
  match d.candidates with
  | some (c :: _) =>
      c.content.bind (fun ct => ct.parts.bind (fun ps => ps.head?.bind (fun pt => pt.text)))
  | _ => none

/-- The recommendation-extraction branch of src/error-reporter.js:97-105:
guard `candidates && candidates.length > 0`, then the field chain, then
`recommendation ? recommendation : fallback` — so an empty-string text is
falsy and yields the fallback. -/
def extractRecommendation (d : GeminiData) : String :=
  match d.candidates with
  | some (_ :: _) =>
      match firstPartText d with
      | some t => if t = "" then noRecMsg else t
      | none => noRecMsg
  | _ => noRecMsg

/-- `analyzeErrorWithGemini` (src/error-reporter.js:54-110).  The credential
and the network are parameters: `world` maps the request prompt to the fetch
outcome.  Returns the recommendation string together with whether the fetch
step was reached. -/
def analyzeErrorWithGemini (apiKey : Option String) (world : String → FetchOutcome)
    (p : Payload) : String × Bool :=
  if credentialFalsy apiKey then (keyMissingMsg, false)
  else
    match world (buildPrompt p) with
    | .transportError => (callErrorMsg, true)
    | .malformedJson => (callErrorMsg, true)
    | .httpError => (apiErrorMsg, true)
    | .success d => (extractRecommendation d, true)

/-- Per-client state of the rate limiter: a request counter and the
window-start instant (milliseconds). -/
structure LimiterState where
  count : Nat
  windowStart : Nat
  deriving DecidableEq

/-- Modelled from the spec: the admission step of the express-rate-limit
middleware configured at src/error-reporter.js:38-41 (the library's counting
algorithm is a dependency, not part of src/), per spec §4.2: lazily reset an
elapsed window, count the request, allow iff the counter stays within the
ceiling. -/
def admission (ceiling window now : Nat) (s : LimiterState) : Bool × LimiterState :=
  let s' := if s.windowStart + window < now then LimiterState.mk 0 now else s
  (s'.count + 1 ≤ ceiling, LimiterState.mk (s'.count + 1) s'.windowStart)

/-- The configured window: `1 * 60 * 1000` ms (src/error-reporter.js:39). -/
def limiterWindowMs : Nat := 1 * 60 * 1000

/-- The configured ceiling: 100 requests per window (src/error-reporter.js:40). -/
def limiterMax : Nat := 100

/-- The record `logger.info(errorMessage, {...})` persists per accepted
report (src/error-reporter.js:122): winston's `info` level, the raw
destructured payload values and the recommendation.  The write-time
timestamp winston adds is not modelled. -/
structure LogRecord where
  level : String
  message : Option JsVal
  url : Option JsVal
  line : Option JsVal
  column : Option JsVal
  errorStack : Option JsVal
  recommendation : String
  deriving DecidableEq

/-- Server state for one client: its limiter entry and the append-only store
of persisted records. -/
structure ServerState where
  limiter : LimiterState
  store : List LogRecord
  deriving DecidableEq

/-- HTTP response of `POST /report-error`: 200 with message and
recommendation, 400 with the validation message, or the limiter's
over-limit rejection. -/
inductive Response where
  | ok (message : Option JsVal) (recommendation : String)
  | badRequest (message : String)
  | tooManyRequests
  deriving DecidableEq

/-- Pipeline stages observable while handling one ingestion request, recorded
in execution order. -/
inductive Stage where
  | rateLimiter
  | validator
  | enrichment
  | storeAppend
  deriving DecidableEq

/-- What handling one `POST /report-error` request produces: the response,
the successor server state, and the trace of pipeline stages that ran. -/
structure HandleResult where
  response : Response
  state : ServerState
  trace : List Stage
  deriving DecidableEq

/-- The `POST /report-error` route (src/error-reporter.js:113-127): express
runs the `limiter` middleware first; the handler then destructures the raw
body, validates it with the Joi schema (using only `error`, not the converted
value), enriches via `analyzeErrorWithGemini`, appends the record and
responds `200 {message, recommendation}`. -/
def handleReport (apiKey : Option String) (world : String → FetchOutcome)
    (now : Nat) (p : Payload) (s : ServerState) : HandleResult :=
  let adm := admission limiterMax limiterWindowMs now s.limiter
  if adm.fst then
    match firstError p with
    | some msg =>
        HandleResult.mk (Response.badRequest msg) (ServerState.mk adm.snd s.store)
          [Stage.rateLimiter, Stage.validator]
    | none =>
        let recText := (analyzeErrorWithGemini apiKey world p).fst
        HandleResult.mk (Response.ok p.errorMessage recText)
          (ServerState.mk adm.snd
            (s.store ++ [LogRecord.mk "info" p.errorMessage p.url p.line p.column
              p.errorStack recText]))
          [Stage.rateLimiter, Stage.validator, Stage.enrichment, Stage.storeAppend]
  else
    HandleResult.mk Response.tooManyRequests (ServerState.mk adm.snd s.store)
      [Stage.rateLimiter]

/-- Run a sequence of requests with the same payload from the same client,
one per instant in `times`, threading the server state and collecting the
responses. -/
def runRequests (apiKey : Option String) (world : String → FetchOutcome)
    (p : Payload) : List Nat → ServerState → ServerState × List Response
  | [], s => (s, [])
  | t :: ts, s =>
      let r := handleReport apiKey world t p s
      let rest := runRequests apiKey world p ts r.state
      (rest.fst, r.response :: rest.snd)

/-- JS `data.split('\n')` (src/error-reporter.js:138): the substrings between
newline occurrences, empty pieces kept. -/
def splitNlAux : List Char → List Char → List String
  | [], acc => [String.mk acc.reverse]
  | c :: rest, acc =>
      if c = '\n' then String.mk acc.reverse :: splitNlAux rest []
      else splitNlAux rest (c :: acc)

/-- Split a string at every newline character, JS-style. -/
def jsSplitNl (s : String) : List String := splitNlAux s.data []

/-- The store content corresponding to a list of lines: lines joined by
single newline separators. -/
def joinLines : List String → String
  | [] => ""
  | [l] => l
  | l :: rest => l ++ "\n" ++ joinLines rest

/-- One element of the `GET /api/logs` result: a decoded record or the raw
fallback `{raw: line}` wrapping an undecodable line. -/
inductive LogEntry (α : Type) where
  | parsed (value : α)
  | raw (line : String)
  deriving DecidableEq

/-- JS `String.prototype.trim` (a JS builtin): strip leading and trailing
whitespace. -/
def jsTrim (s : String) : String :=
  String.mk (((s.data.dropWhile Char.isWhitespace).reverse.dropWhile Char.isWhitespace).reverse)

/-- The filter of src/error-reporter.js:139: keep a line iff its trim is
non-empty. -/
def keepLine (l : String) : Bool := jsTrim l ≠ ""

/-- Decode one kept line (src/error-reporter.js:140-146): `JSON.parse` (a JS
builtin, abstracted as the partial function `decode`) in a try/catch whose
catch returns the raw fallback. -/
def entryOf {α : Type} (decode : String → Option α) (l : String) : LogEntry α :=
  match decode l with
  | some v => LogEntry.parsed v
  | none => LogEntry.raw l

/-- The `GET /api/logs` handler body (src/error-reporter.js:136-147): split
the store content on newlines, drop whitespace-only lines, decode each
remaining line tolerantly. -/
def readLogs {α : Type} (decode : String → Option α) (content : String) : List (LogEntry α) :=
  ((jsSplitNl content).filter keepLine).map (entryOf decode)

/-- The valid example payload of the spec (§8): `{errorMessage:"x is not
defined", url:"https://a.test/p", line:10, column:3, errorStack:null}`. -/
def samplePayload : Payload :=
  Payload.mk (some (JsVal.vstr "x is not defined")) (some (JsVal.vstr "https://a.test/p"))
    (some (JsVal.vnum 10)) (some (JsVal.vnum 3)) (some JsVal.vnull)

/-- The sample payload with `line` given as the numeric string "10". -/
def stringLinePayload : Payload :=
  Payload.mk (some (JsVal.vstr "x is not defined")) (some (JsVal.vstr "https://a.test/p"))
    (some (JsVal.vstr "10")) (some (JsVal.vnum 3)) (some JsVal.vnull)

/-- A payload with every field absent. -/
def emptyPayload : Payload := Payload.mk none none none none none

/-- A fresh server state: no requests counted, empty store. -/
def freshState : ServerState := ServerState.mk (LimiterState.mk 0 0) []

/-- A network in which the enrichment endpoint is unreachable. -/
def unreachableWorld : String → FetchOutcome := fun _ => FetchOutcome.transportError

/-- A concrete stand-in for `JSON.parse` on two known record lines, used to
instantiate the abstract decoder at concrete inputs. -/
def demoDecode : String → Option Nat := fun l =>
  if l = "RECORD-A" then some 1 else if l = "RECORD-B" then some 2 else none

/-- A successful response body whose first part carries the empty string as
its `text`. -/
def emptyTextData : GeminiData :=
  GeminiData.mk (some [GeminiCandidate.mk (some (GeminiContent.mk (some [GeminiPart.mk (some "")])))])

/-- A successful response body whose first part carries a non-empty text. -/
def goodData : GeminiData :=
  GeminiData.mk
    (some [GeminiCandidate.mk (some (GeminiContent.mk (some [GeminiPart.mk (some "Fix it.")])))])

/-- One client sending 100 valid requests within one window, starting fresh. -/
def first100 : ServerState × List Response :=
  runRequests (some GEMINI_API_KEY) unreachableWorld samplePayload (List.replicate 100 0)
    freshState

/-- The same client's 101st request inside the same window. -/
def request101 : HandleResult :=
  handleReport (some GEMINI_API_KEY) unreachableWorld 0 samplePayload first100.fst

theorem splitNlAux_no_nl (xs : List Char) (h : '\n' ∉ xs) :
    ∀ acc, splitNlAux xs acc = [String.mk (acc.reverse ++ xs)] := by
  induction xs with
  | nil => intro acc; simp [splitNlAux]
  | cons c xs ih =>
      intro acc
      have hc : ¬(c = '\n') := fun hc => h (hc ▸ List.mem_cons_self c xs)
      have hxs : '\n' ∉ xs := fun hm => h (List.mem_cons_of_mem _ hm)
      simp only [splitNlAux, if_neg hc]
      rw [ih hxs (c :: acc)]
      simp

theorem splitNlAux_append (xs : List Char) (h : '\n' ∉ xs) (rest : List Char) :
    ∀ acc, splitNlAux (xs ++ '\n' :: rest) acc =
      String.mk (acc.reverse ++ xs) :: splitNlAux rest [] := by
  induction xs with
  | nil => intro acc; simp [splitNlAux]
  | cons c xs ih =>
      intro acc
      have hc : ¬(c = '\n') := fun hc => h (hc ▸ List.mem_cons_self c xs)
      have hxs : '\n' ∉ xs := fun hm => h (List.mem_cons_of_mem _ hm)
      simp only [List.cons_append, splitNlAux, if_neg hc, List.append_eq]
      rw [ih hxs (c :: acc)]
      simp

theorem jsSplitNl_joinLines (ls : List String) (h : ∀ l ∈ ls, '\n' ∉ l.data)
    (hne : ls ≠ []) : jsSplitNl (joinLines ls) = ls := by
  induction ls with
  | nil => exact absurd rfl hne
  | cons l ls ih =>
      cases ls with
      | nil =>
          show jsSplitNl l = [l]
          unfold jsSplitNl
          rw [splitNlAux_no_nl l.data (h l (List.mem_cons_self _ _)) []]
          rfl
      | cons l' ls' =>
          have hdata : (joinLines (l :: l' :: ls')).data =
              l.data ++ '\n' :: (joinLines (l' :: ls')).data := by
            show (l ++ "\n" ++ joinLines (l' :: ls')).data = _
            simp [String.data_append]
          unfold jsSplitNl
          rw [hdata, splitNlAux_append l.data (h l (List.mem_cons_self _ _)) _ []]
          have ih' := ih (fun x hx => h x (List.mem_cons_of_mem _ hx)) (by simp)
          unfold jsSplitNl at ih'
          rw [ih']
          rfl

theorem readLogs_joinLines {α : Type} (decode : String → Option α) (ls : List String)
    (h : ∀ l ∈ ls, '\n' ∉ l.data) :
    readLogs decode (joinLines ls) = (ls.filter keepLine).map (entryOf decode) := by
  cases ls with
  | nil =>
      have hk : keepLine "" = false := by decide
      show readLogs decode "" = []
      rw [readLogs]
      have hsp : jsSplitNl "" = [""] := rfl
      rw [hsp]
      simp [hk]
  | cons l ls => rw [readLogs, jsSplitNl_joinLines (l :: ls) h (by simp)]

/-- Every branch of the enrichment client yields a non-empty string. -/
theorem analyze_ne_empty (apiKey : Option String) (world : String → FetchOutcome)
    (p : Payload) : (analyzeErrorWithGemini apiKey world p).fst ≠ "" := by
  unfold analyzeErrorWithGemini
  cases hk : credentialFalsy apiKey with
  | true => simp [keyMissingMsg]
  | false =>
      simp only [Bool.false_eq_true, if_false]
      cases world (buildPrompt p) with
      | transportError => simp [callErrorMsg]
      | malformedJson => simp [callErrorMsg]
      | httpError => simp [apiErrorMsg]
      | success d =>
          simp only
          unfold extractRecommendation
          cases d.candidates with
          | none => simp [noRecMsg]
          | some cs =>
              cases cs with
              | nil => simp [noRecMsg]
              | cons c rest =>
                  cases ht : firstPartText d with
                  | none => simp [noRecMsg]
                  | some t =>
                      simp only [ht]
                      by_cases he : t = "" <;> simp [he, noRecMsg]

/-- The extraction branch rewritten through `firstPartText`. -/
theorem extract_of_firstPartText (d : GeminiData) :
    extractRecommendation d =
      match firstPartText d with
      | some t => if t = "" then noRecMsg else t
      | none => noRecMsg := by
  unfold extractRecommendation firstPartText
  cases hc : d.candidates with
  | none => simp
  | some cs =>
      cases cs with
      | nil => simp
      | cons c rest => simp

/-- A payload is valid exactly when every per-field check passes. -/
theorem firstError_none_iff (p : Payload) :
    firstError p = none ↔
      checkRequiredString "errorMessage" p.errorMessage = none ∧
      checkUri "url" p.url = none ∧
      checkRequiredInteger "line" p.line = none ∧
      checkRequiredInteger "column" p.column = none ∧
      checkErrorStack p.errorStack = none := by
  unfold firstError
  cases h0 : checkRequiredString "errorMessage" p.errorMessage <;>
    cases h1 : checkUri "url" p.url <;>
      cases h2 : checkRequiredInteger "line" p.line <;>
        cases h3 : checkRequiredInteger "column" p.column <;>
          cases h4 : checkErrorStack p.errorStack <;> simp

/-- Claim C1: for every valid payload the limiter admits, the ingestion
handler responds 200 carrying the enrichment result as its recommendation,
and the enrichment call resolves every outcome — missing credential,
transport error, non-success status, malformed response, absent structure —
to a non-empty string rather than an exception (it is a total function). -/
theorem c1_valid_payload_success_nonempty (apiKey : Option String)
    (world : String → FetchOutcome) (now : Nat) (p : Payload) (s : ServerState)
    (hv : firstError p = none)
    (ha : (admission limiterMax limiterWindowMs now s.limiter).fst = true) :
    (handleReport apiKey world now p s).response =
      Response.ok p.errorMessage (analyzeErrorWithGemini apiKey world p).fst ∧
    (analyzeErrorWithGemini apiKey world p).fst ≠ "" := by
  refine ⟨?_, analyze_ne_empty apiKey world p⟩
  unfold handleReport
  simp [ha, hv]

/-- Claim C1 witness: the sample payload against an unreachable endpoint with
no credential configured. -/
theorem c1_witness :
    (handleReport none unreachableWorld 0 samplePayload freshState).response =
      Response.ok samplePayload.errorMessage
        (analyzeErrorWithGemini none unreachableWorld samplePayload).fst ∧
    (analyzeErrorWithGemini none unreachableWorld samplePayload).fst ≠ "" :=
  c1_valid_payload_success_nonempty none unreachableWorld 0 samplePayload freshState
    (by decide) (by decide)

/-- Claim C2: with the credential absent (or empty, equally falsy to the
`!GEMINI_API_KEY` guard), enrichment returns the fixed credential-missing
string for every report and every network, and never reaches the fetch step
(the second component is false). -/
theorem c2_no_credential_no_fetch (world : String → FetchOutcome) (p : Payload) :
    analyzeErrorWithGemini none world p = (keyMissingMsg, false) ∧
    analyzeErrorWithGemini (some "") world p = (keyMissingMsg, false) := by
  constructor <;> rfl

/-- Claim C3 counterexample: on the spec's example payload with an unreachable
enrichment endpoint the handler does answer 200 with the errorMessage, but the
transport-failure fallback string is "Error calling Gemini API.", not the
"Error calling service." the claim states. -/
theorem c3_counterexample :
    ((handleReport (some GEMINI_API_KEY) unreachableWorld 0 samplePayload freshState).response =
      Response.ok (some (JsVal.vstr "x is not defined")) "Error calling Gemini API.") ∧
    "Error calling Gemini API." ≠ "Error calling service." := by
  constructor
  · decide
  · decide

/-- Claim C3 (amended): with the transport failing, the example request
returns 200 with message = errorMessage and recommendation = the fixed
transport-failure fallback "Error calling Gemini API.", and exactly one
record with that message and that fallback recommendation is appended to the
store, whatever its prior content. -/
theorem c3_amended_transport_failure (store : List LogRecord) :
    handleReport (some GEMINI_API_KEY) unreachableWorld 0 samplePayload
        (ServerState.mk (LimiterState.mk 0 0) store) =
      HandleResult.mk
        (Response.ok (some (JsVal.vstr "x is not defined")) callErrorMsg)
        (ServerState.mk (LimiterState.mk 1 0)
          (store ++ [LogRecord.mk "info" (some (JsVal.vstr "x is not defined"))
            (some (JsVal.vstr "https://a.test/p")) (some (JsVal.vnum 10))
            (some (JsVal.vnum 3)) (some JsVal.vnull) callErrorMsg]))
        [Stage.rateLimiter, Stage.validator, Stage.enrichment, Stage.storeAppend] := by
  rfl

/-- Claim C4 counterexample: a store whose middle line is the undecodable
whitespace line " " between two valid records yields only two entries, not
three — the whitespace filter runs before the raw-fallback decoder, so such
an invalid line is dropped rather than surfaced. -/
theorem c4_counterexample :
    demoDecode " " = none ∧
    readLogs demoDecode (joinLines ["RECORD-A", " ", "RECORD-B"]) =
      [LogEntry.parsed 1, LogEntry.parsed 2] ∧
    (readLogs demoDecode (joinLines ["RECORD-A", " ", "RECORD-B"])).length ≠ 3 := by
  refine ⟨rfl, ?_, ?_⟩ <;> decide

/-- Claim C4 (amended): for every store of one undecodable line of non-blank
content between two decodable lines, the read returns exactly three entries
in store order — the two records decoded intact in their positions and the
middle one as a raw fallback wrapping its original text. -/
theorem c4_amended_three_entries {α : Type} (decode : String → Option α)
    (l1 l2 l3 : String) (v1 v3 : α)
    (h1 : '\n' ∉ l1.data) (h2 : '\n' ∉ l2.data) (h3 : '\n' ∉ l3.data)
    (t1 : jsTrim l1 ≠ "") (t2 : jsTrim l2 ≠ "") (t3 : jsTrim l3 ≠ "")
    (d1 : decode l1 = some v1) (d2 : decode l2 = none) (d3 : decode l3 = some v3) :
    readLogs decode (joinLines [l1, l2, l3]) =
      [LogEntry.parsed v1, LogEntry.raw l2, LogEntry.parsed v3] := by
  rw [readLogs_joinLines decode [l1, l2, l3] (by
    intro l hl
    simp only [List.mem_cons, List.not_mem_nil, or_false] at hl
    rcases hl with rfl | rfl | rfl <;> assumption)]
  simp [List.filter, keepLine, t1, t2, t3, entryOf, d1, d2, d3]

/-- Claim C4 witness: a concrete three-line store with an undecodable,
non-blank middle line. -/
theorem c4_witness :
    readLogs demoDecode (joinLines ["RECORD-A", "x", "RECORD-B"]) =
      [LogEntry.parsed 1, LogEntry.raw "x", LogEntry.parsed 2] :=
  c4_amended_three_entries demoDecode "RECORD-A" "x" "RECORD-B" 1 2
    (by decide) (by decide) (by decide) (by decide) (by decide) (by decide)
    (by decide) (by decide) (by decide)

/-- Claim C5 counterexample: a request from a client already at the ceiling is
counted (100 becomes 101) and rejected by the rate limiter while the
validator never runs — so a request is not checked by the Validator before
the RateLimiter counts or rejects it. -/
theorem c5_counterexample :
    (handleReport (some GEMINI_API_KEY) unreachableWorld 0 emptyPayload
        (ServerState.mk (LimiterState.mk 100 0) [])) =
      HandleResult.mk Response.tooManyRequests (ServerState.mk (LimiterState.mk 101 0) [])
        [Stage.rateLimiter] ∧
    Stage.validator ∉ (handleReport (some GEMINI_API_KEY) unreachableWorld 0 emptyPayload
        (ServerState.mk (LimiterState.mk 100 0) [])).trace := by
  constructor <;> decide

/-- Claim C5 (amended): the processing stages of every ingestion request occur
in the order RateLimiter, Validator, EnrichmentClient, AppendLogStore — every
trace is a sublist of that order, and an admitted valid request runs exactly
those four stages in that order. -/
theorem c5_amended_pipeline_order (apiKey : Option String) (world : String → FetchOutcome)
    (now : Nat) (p : Payload) (s : ServerState) :
    (handleReport apiKey world now p s).trace.Sublist
      [Stage.rateLimiter, Stage.validator, Stage.enrichment, Stage.storeAppend] ∧
    ((admission limiterMax limiterWindowMs now s.limiter).fst = true → firstError p = none →
      (handleReport apiKey world now p s).trace =
        [Stage.rateLimiter, Stage.validator, Stage.enrichment, Stage.storeAppend]) := by
  constructor
  · unfold handleReport
    cases ha : (admission limiterMax limiterWindowMs now s.limiter).fst
    · simp only [ha, Bool.false_eq_true, if_false]
      decide
    · cases hv : firstError p with
      | some m => simp only [ha, if_true, hv]; decide
      | none => simp only [ha, if_true, hv]; decide
  · intro ha hv
    unfold handleReport
    simp [ha, hv]

/-- Claim C5 witness: an admitted valid request runs all four stages in
order. -/
theorem c5_amended_witness :
    (handleReport (some GEMINI_API_KEY) unreachableWorld 0 samplePayload freshState).trace =
      [Stage.rateLimiter, Stage.validator, Stage.enrichment, Stage.storeAppend] :=
  (c5_amended_pipeline_order (some GEMINI_API_KEY) unreachableWorld 0 samplePayload
    freshState).2 (by decide) (by decide)

/-- Claim C6: every admitted payload the validator rejects gets a 400
response carrying the first violation's message, no record is persisted, and
the reported field follows the priority order errorMessage, url, line,
column: an errorMessage violation is always the one reported, a url violation
is reported whenever errorMessage passes, and so on. -/
theorem c6_validation_failure (apiKey : Option String) (world : String → FetchOutcome)
    (now : Nat) (p : Payload) (s : ServerState) (m : String)
    (ha : (admission limiterMax limiterWindowMs now s.limiter).fst = true)
    (hv : firstError p = some m) :
    (handleReport apiKey world now p s).response = Response.badRequest m ∧
    (handleReport apiKey world now p s).state.store = s.store ∧
    (∀ e, checkRequiredString "errorMessage" p.errorMessage = some e → m = e) ∧
    (checkRequiredString "errorMessage" p.errorMessage = none →
      ∀ e, checkUri "url" p.url = some e → m = e) ∧
    (checkRequiredString "errorMessage" p.errorMessage = none → checkUri "url" p.url = none →
      ∀ e, checkRequiredInteger "line" p.line = some e → m = e) ∧
    (checkRequiredString "errorMessage" p.errorMessage = none → checkUri "url" p.url = none →
      checkRequiredInteger "line" p.line = none →
      ∀ e, checkRequiredInteger "column" p.column = some e → m = e) := by
  refine ⟨?_, ?_, ?_, ?_, ?_, ?_⟩
  · unfold handleReport; simp [ha, hv]
  · unfold handleReport; simp [ha, hv]
  · intro e he
    have h' : firstError p = some e := by simp [firstError, he]
    rw [hv] at h'; exact Option.some.inj h'
  · intro h0 e he
    have h' : firstError p = some e := by simp [firstError, h0, he]
    rw [hv] at h'; exact Option.some.inj h'
  · intro h0 h1 e he
    have h' : firstError p = some e := by simp [firstError, h0, h1, he]
    rw [hv] at h'; exact Option.some.inj h'
  · intro h0 h1 h2 e he
    have h' : firstError p = some e := by simp [firstError, h0, h1, h2, he]
    rw [hv] at h'; exact Option.some.inj h'

/-- Claim C6 witness: the all-fields-absent payload is rejected with the
errorMessage-field message and persists nothing. -/
theorem c6_witness :
    (handleReport (some GEMINI_API_KEY) unreachableWorld 0 emptyPayload freshState).response =
      Response.badRequest (quoted "errorMessage" ++ " is required") ∧
    (handleReport (some GEMINI_API_KEY) unreachableWorld 0 emptyPayload freshState).state.store =
      freshState.store :=
  ⟨(c6_validation_failure (some GEMINI_API_KEY) unreachableWorld 0 emptyPayload freshState
      (quoted "errorMessage" ++ " is required") (by decide) (by decide)).1,
   (c6_validation_failure (some GEMINI_API_KEY) unreachableWorld 0 emptyPayload freshState
      (quoted "errorMessage" ++ " is required") (by decide) (by decide)).2.1⟩

set_option maxRecDepth 8000 in
/-- Claim C7: a single client issuing 101 valid requests inside one 60-second
window has the first 100 admitted (each persisting one record) and the 101st
rejected by the limiter — persisting nothing and running neither enrichment
nor the store append — and the same client's next request after the window
elapses is admitted again by the lazy counter reset. -/
theorem c7_window_ceiling :
    first100.snd =
      List.replicate 100 (Response.ok (some (JsVal.vstr "x is not defined")) callErrorMsg) ∧
    first100.fst.store.length = 100 ∧
    request101.response = Response.tooManyRequests ∧
    request101.trace = [Stage.rateLimiter] ∧
    request101.state.store = first100.fst.store ∧
    (handleReport (some GEMINI_API_KEY) unreachableWorld 60001 samplePayload
        request101.state).response =
      Response.ok (some (JsVal.vstr "x is not defined")) callErrorMsg := by
  refine ⟨?_, ?_, ?_, ?_, ?_, ?_⟩ <;> decide

/-- Claim C8 counterexample: a successful response whose first text part is
structurally present but equal to "" is not returned verbatim — the JS
truthiness test `recommendation ? recommendation : fallback` sends it to the
"no recommendation provided" fallback instead. -/
theorem c8_counterexample :
    firstPartText emptyTextData = some "" ∧
    analyzeErrorWithGemini (some GEMINI_API_KEY) (fun _ => FetchOutcome.success emptyTextData)
      samplePayload = (noRecMsg, true) ∧
    noRecMsg ≠ "" := by
  refine ⟨rfl, ?_, ?_⟩ <;> decide

/-- Claim C8 (amended): on a successful response the client returns the first
candidate's first text part verbatim when it is structurally present and
non-empty; when the structure is absent — or the text is the empty string,
which the truthiness test conflates with absence — it returns the fixed
"no recommendation provided" fallback. -/
theorem c8_amended_extraction (k : String) (world : String → FetchOutcome) (p : Payload)
    (d : GeminiData) (hk : k ≠ "") (hw : world (buildPrompt p) = FetchOutcome.success d) :
    (∀ t, firstPartText d = some t → t ≠ "" →
      analyzeErrorWithGemini (some k) world p = (t, true)) ∧
    (firstPartText d = none →
      analyzeErrorWithGemini (some k) world p = (noRecMsg, true)) ∧
    (firstPartText d = some "" →
      analyzeErrorWithGemini (some k) world p = (noRecMsg, true)) := by
  have hcf : credentialFalsy (some k) = false := by simp [credentialFalsy, hk]
  have hbase : analyzeErrorWithGemini (some k) world p = (extractRecommendation d, true) := by
    unfold analyzeErrorWithGemini
    rw [hcf]
    simp only [Bool.false_eq_true, if_false, hw]
  refine ⟨?_, ?_, ?_⟩
  · intro t ht hne
    rw [hbase, extract_of_firstPartText, ht]
    simp [hne]
  · intro ht
    rw [hbase, extract_of_firstPartText, ht]
  · intro ht
    rw [hbase, extract_of_firstPartText, ht]
    simp

/-- Claim C8 witness: a present non-empty text part is returned verbatim. -/
theorem c8_witness :
    analyzeErrorWithGemini (some "k") (fun _ => FetchOutcome.success goodData) samplePayload =
      ("Fix it.", true) :=
  (c8_amended_extraction "k" (fun _ => FetchOutcome.success goodData) samplePayload goodData
    (by decide) rfl).1 "Fix it." rfl (by decide)

/-- Claim C9: a whitespace-only line anywhere in the store contributes
neither a decoded record nor a raw fallback — removing it leaves the read
result unchanged — and makes the number of returned entries strictly smaller
than the number of lines in the store. -/
theorem c9_whitespace_lines_omitted {α : Type} (decode : String → Option α)
    (ls1 ls2 : List String) (w : String)
    (h : ∀ l ∈ ls1 ++ w :: ls2, '\n' ∉ l.data) (hw : jsTrim w = "") :
    readLogs decode (joinLines (ls1 ++ w :: ls2)) = readLogs decode (joinLines (ls1 ++ ls2)) ∧
    (readLogs decode (joinLines (ls1 ++ w :: ls2))).length <
      (jsSplitNl (joinLines (ls1 ++ w :: ls2))).length := by
  have h2 : ∀ l ∈ ls1 ++ ls2, '\n' ∉ l.data := by
    intro l hl
    apply h
    rcases List.mem_append.mp hl with h' | h'
    · exact List.mem_append.mpr (Or.inl h')
    · exact List.mem_append.mpr (Or.inr (List.mem_cons_of_mem _ h'))
  have hkw : keepLine w = false := by simp [keepLine, hw]
  have hfil : (ls1 ++ w :: ls2).filter keepLine =
      ls1.filter keepLine ++ ls2.filter keepLine := by
    simp [List.filter_append, List.filter_cons, hkw]
  constructor
  · rw [readLogs_joinLines decode _ h, readLogs_joinLines decode _ h2, hfil,
      List.filter_append]
  · rw [readLogs_joinLines decode _ h, jsSplitNl_joinLines _ h (by simp),
      List.length_map, hfil]
    have hle1 : (ls1.filter keepLine).length ≤ ls1.length := List.length_filter_le _ _
    have hle2 : (ls2.filter keepLine).length ≤ ls2.length := List.length_filter_le _ _
    rw [List.length_append, List.length_append, List.length_cons]
    omega

/-- Claim C9 witness: a blank line between two records is silently omitted. -/
theorem c9_witness :
    readLogs demoDecode (joinLines ["RECORD-A", " ", "RECORD-B"]) =
      readLogs demoDecode (joinLines ["RECORD-A", "RECORD-B"]) ∧
    (readLogs demoDecode (joinLines ["RECORD-A", " ", "RECORD-B"])).length <
      (jsSplitNl (joinLines ["RECORD-A", " ", "RECORD-B"])).length :=
  c9_whitespace_lines_omitted demoDecode ["RECORD-A"] ["RECORD-B"] " "
    (by decide) (by decide)

/-- Claim C10 counterexample: the payload with line given as the numeric
string "10" is accepted by the validator and receives the same response as
the integer payload, but the pipeline does not proceed as if the integer had
been supplied: the persisted record keeps the raw string "10" where the
integer payload's record holds the number 10, so the two stores differ. -/
theorem c10_counterexample :
    firstError stringLinePayload = none ∧
    (handleReport (some GEMINI_API_KEY) unreachableWorld 0 stringLinePayload
        freshState).response =
      (handleReport (some GEMINI_API_KEY) unreachableWorld 0 samplePayload freshState).response ∧
    (handleReport (some GEMINI_API_KEY) unreachableWorld 0 stringLinePayload
        freshState).state.store ≠
      (handleReport (some GEMINI_API_KEY) unreachableWorld 0 samplePayload
        freshState).state.store := by
  refine ⟨?_, ?_, ?_⟩ <;> decide

/-- Claim C10 (amended): a payload whose line is a numeric string denoting an
integer is accepted by the validator through Joi's coercion, and when the
string is the canonical decimal form of the integer the response is identical
to the integer payload's; but the handler uses the raw body rather than the
converted value, so the persisted record retains the original string where
the integer payload's record holds the number. -/
theorem c10_amended_coercion (apiKey : Option String) (world : String → FetchOutcome)
    (now : Nat) (s : ServerState) (p : Payload) (str : String) (q : Rat)
    (hline : p.line = some (JsVal.vstr str))
    (hq : parseNumber str = some q) (hint : q.den = 1)
    (hcanon : numToString q = str)
    (hrest : firstError { p with line := some (JsVal.vnum q) } = none)
    (ha : (admission limiterMax limiterWindowMs now s.limiter).fst = true) :
    firstError p = none ∧
    (handleReport apiKey world now p s).response =
      (handleReport apiKey world now { p with line := some (JsVal.vnum q) } s).response ∧
    (handleReport apiKey world now p s).state.store =
      s.store ++ [LogRecord.mk "info" p.errorMessage p.url (some (JsVal.vstr str)) p.column
        p.errorStack (analyzeErrorWithGemini apiKey world p).fst] ∧
    (handleReport apiKey world now { p with line := some (JsVal.vnum q) } s).state.store =
      s.store ++ [LogRecord.mk "info" p.errorMessage p.url (some (JsVal.vnum q)) p.column
        p.errorStack (analyzeErrorWithGemini apiKey world p).fst] := by
  have hlineChk : checkRequiredInteger "line" p.line = none := by
    rw [hline]; simp [checkRequiredInteger, hq, hint]
  have hrest' := (firstError_none_iff _).mp hrest
  have hvp : firstError p = none := by
    rw [firstError_none_iff]
    exact ⟨hrest'.1, hrest'.2.1, hlineChk, hrest'.2.2.2.1, hrest'.2.2.2.2⟩
  have hprompt : buildPrompt p = buildPrompt { p with line := some (JsVal.vnum q) } := by
    unfold buildPrompt
    rw [hline]
    simp [interp, hcanon]
  have hanalyze : analyzeErrorWithGemini apiKey world p =
      analyzeErrorWithGemini apiKey world { p with line := some (JsVal.vnum q) } := by
    unfold analyzeErrorWithGemini
    rw [hprompt]
  refine ⟨hvp, ?_, ?_, ?_⟩
  · unfold handleReport
    simp [ha, hvp, hrest, ← hanalyze]
  · unfold handleReport
    simp [ha, hvp, hline]
  · unfold handleReport
    simp [ha, hrest, ← hanalyze]

/-- Claim C10 witness: the sample payload with line "10" versus line 10. -/
theorem c10_witness :
    firstError stringLinePayload = none ∧
    (handleReport (some GEMINI_API_KEY) unreachableWorld 0 stringLinePayload
        freshState).response =
      (handleReport (some GEMINI_API_KEY) unreachableWorld 0
        { stringLinePayload with line := some (JsVal.vnum 10) } freshState).response ∧
    (handleReport (some GEMINI_API_KEY) unreachableWorld 0 stringLinePayload
        freshState).state.store =
      freshState.store ++ [LogRecord.mk "info" stringLinePayload.errorMessage
        stringLinePayload.url (some (JsVal.vstr "10")) stringLinePayload.column
        stringLinePayload.errorStack
        (analyzeErrorWithGemini (some GEMINI_API_KEY) unreachableWorld stringLinePayload).fst] ∧
    (handleReport (some GEMINI_API_KEY) unreachableWorld 0
        { stringLinePayload with line := some (JsVal.vnum 10) } freshState).state.store =
      freshState.store ++ [LogRecord.mk "info" stringLinePayload.errorMessage
        stringLinePayload.url (some (JsVal.vnum 10)) stringLinePayload.column
        stringLinePayload.errorStack
        (analyzeErrorWithGemini (some GEMINI_API_KEY) unreachableWorld stringLinePayload).fst] :=
  c10_amended_coercion (some GEMINI_API_KEY) unreachableWorld 0 freshState stringLinePayload
    "10" 10 rfl (by decide) (by decide) (by decide) (by decide) (by decide)

end ErrorReporter
